import Mathlib

/-!
Verification of the access/refresh token lifecycle of the back-end-prep
repository (module10-auth-flow auth server and the module11-auth variant).

The Express/Mongoose handlers are shallowly embedded as pure Lean functions
over an explicit database state.  External libraries are modelled as ideal
deterministic primitives:

* `randomUUID` (node:crypto) is modelled as a fresh-value supply: the database
  state carries a counter `nextTokenVal`, and each generated opaque refresh
  value is the current counter.  This captures the one property the code
  relies on (a freshly generated value never collides with a stored one).
* `bcrypt.hash` / `bcrypt.compare` are modelled as an ideal deterministic
  hash: `compare p h` succeeds exactly when `h` is the hash of `p`.
* `jsonwebtoken` is modelled symbolically: a signed token records its
  subject, roles, expiry and whether its signature is valid; `jwt.verify`
  checks the signature first and then the expiry, as the library does,
  throwing the distinguished `TokenExpired` outcome only for a well-formed,
  correctly signed token whose expiry has passed.

Mongo `_id` values and user ids are modelled as counters.  Each `await`-ed
database call of a handler is one atomic step; the sequential handlers are
their straight-line composition, and for the concurrency analysis the
refresh handler is additionally given as a small-step machine so that
interleavings of two concurrent callers can be examined.
-/

namespace BackEndPrep

/-- Configuration constant `REFRESH_TOKEN_TTL` (seconds) from `#config`.
The claims do not depend on its numeric value; seven days is the
representative default. -/
def REFRESH_TOKEN_TTL : Nat := 7 * 24 * 60 * 60

/-- Configuration constant `ACCESS_TOKEN_TTL` (seconds) from `#config`. -/
def ACCESS_TOKEN_TTL : Nat := 15 * 60

/-- A stored user document, per the Mongoose `userSchema` of the auth server
(module10): firstName, lastName, unique email, password hash, roles with
default `["user"]`.  `id` models the Mongo `_id`. -/
structure UserRec where
  id : Nat
  email : String
  password : String
  roles : List String
  firstName : String
  lastName : String
deriving Repr, DecidableEq

/-- A stored refresh-token document, per `refreshTokenSchema`: the opaque
`token` value (unique), the owning `userId`, and `expireAt = createdAt +
REFRESH_TOKEN_TTL`.  `id` models the Mongo `_id`. -/
structure RefreshTokenRow where
  id : Nat
  token : Nat
  userId : Nat
  expireAt : Nat
deriving Repr, DecidableEq

/-- The database state shared by the handlers, together with the id/value
counters that model Mongo id generation and the `randomUUID` fresh-value
supply. -/
structure DB where
  users : List UserRec
  refreshTokens : List RefreshTokenRow
  nextUserId : Nat
  nextTokenVal : Nat
  nextRowId : Nat
deriving Repr, DecidableEq

/-- Ideal deterministic model of `bcrypt.hash` (the salt does not matter for
any claim; hashing is modelled as a perfect injective one-way map). -/
def bcryptHash (password : String) : String := "$2b$10$" ++ password

/-- Model of `bcrypt.compare`: succeeds exactly when the stored hash is the
hash of the presented password. -/
def bcryptCompare (password hash : String) : Bool := hash == bcryptHash password

/-- A symbolic JWT as received by a verifier: either structurally malformed,
or a token carrying an optional `sub` claim, role claims, an expiry
timestamp, and a flag recording whether its signature verifies against the
process secret. -/
inductive Jwt where
  | malformed : Jwt
  | token (sub : Option String) (roles : List String) (exp : Nat) (sigValid : Bool) : Jwt
deriving Repr, DecidableEq

/-- Outcome of `jwt.verify`: the distinguished `TokenExpiredError`, any other
verification error (bad signature or malformed structure), or the decoded
payload. -/
inductive VerifyOutcome where
  | expired : VerifyOutcome
  | invalid : VerifyOutcome
  | ok (sub : Option String) (roles : List String) : VerifyOutcome
deriving Repr, DecidableEq

/-- Model of `jwt.verify(token, secret)`: malformed structure and bad
signature raise the generic error; a correctly signed token whose expiry
has passed raises `TokenExpiredError`; otherwise the payload is returned.
(The library checks the signature before the expiry, so an expired token
with a bad signature is `invalid`, not `expired`.) -/
def jwtVerify (now : Nat) : Jwt → VerifyOutcome
  | .malformed => .invalid
  | .token sub roles exp sigValid =>
    if !sigValid then .invalid
    else if exp ≤ now then .expired
    else .ok sub roles

/-- Model of `jwt.sign(payload, secret, tokenOptions)` as used by
`createTokens`: subject is the user id rendered as a string, expiry is
`now + ACCESS_TOKEN_TTL`, and the signature is valid by construction. -/
def jwtSign (roles : List String) (subject : String) (now : Nat) : Jwt :=
  .token (some subject) roles (now + ACCESS_TOKEN_TTL) true

/-- A thrown request error: `new Error(message, { cause: { status, code? } })`. -/
structure HttpErr where
  status : Nat
  message : String
  code : Option String
deriving Repr, DecidableEq

/-- A credential value placed in a response cookie. -/
inductive CookieVal where
  | refreshVal (v : Nat) : CookieVal
  | accessVal (t : Jwt) : CookieVal
deriving Repr, DecidableEq

/-- A cookie set on the response by `res.cookie(name, value, options)`. -/
structure Cookie where
  name : String
  val : CookieVal
deriving Repr, DecidableEq

/-- A successful handler response: HTTP status, body message, and the
cookies set on the response. -/
structure AuthResponse where
  status : Nat
  message : String
  cookies : List Cookie
deriving Repr, DecidableEq

/-- `User.exists({ email })`. -/
def User.existsEmail (db : DB) (email : String) : Bool :=
  db.users.any (fun u => u.email == email)

/-- `User.findOne({ email })`. -/
def User.findOneByEmail (db : DB) (email : String) : Option UserRec :=
  db.users.find? (fun u => u.email == email)

/-- `User.findById(id)` with a Nat id. -/
def User.findById (db : DB) (uid : Nat) : Option UserRec :=
  db.users.find? (fun u => u.id == uid)

/-- `User.findById(decoded.sub)`: mongoose casts the string subject back to
an id. -/
def User.findByIdStr (db : DB) (sub : String) : Option UserRec :=
  db.users.find? (fun u => toString u.id == sub)

/-- `User.create({...})`: inserts a new document with a fresh id and the
schema default `roles = ["user"]`.  Mongoose `create` returns the full
document, including fields the schema marks `select: false` (that option
applies to queries only). -/
def User.createUser (db : DB) (email password firstName lastName : String) :
    DB × UserRec :=
  let u : UserRec := ⟨db.nextUserId, email, password, ["user"], firstName, lastName⟩
  ({ db with users := db.users ++ [u], nextUserId := db.nextUserId + 1 }, u)

/-- `RefreshToken.findOne({ token: refreshToken })`.  Note: the query filters
on the token value only; it applies no `expireAt` condition. -/
def RefreshToken.findOne (db : DB) (v : Nat) : Option RefreshTokenRow :=
  db.refreshTokens.find? (fun r => r.token == v)

/-- `RefreshToken.findByIdAndDelete(id)` (the deleted-or-not result is not
inspected by the caller). -/
def RefreshToken.findByIdAndDelete (db : DB) (rowId : Nat) : DB :=
  { db with refreshTokens := db.refreshTokens.filter (fun r => r.id ≠ rowId) }

/-- `RefreshToken.deleteMany({ userId })`. -/
def RefreshToken.deleteMany (db : DB) (uid : Nat) : DB :=
  { db with refreshTokens := db.refreshTokens.filter (fun r => r.userId ≠ uid) }

/-- `RefreshToken.deleteOne({ token })`. -/
def RefreshToken.deleteOne (db : DB) (v : Nat) : DB :=
  { db with refreshTokens := db.refreshTokens.filter (fun r => r.token ≠ v) }

/-- The Mongo TTL index `{ expireAt: 1 }, { expireAfterSeconds: 0 }`:
the background sweep physically removes every document whose `expireAt`
is not in the future. -/
def ttlSweep (now : Nat) (db : DB) : DB :=
  { db with refreshTokens := db.refreshTokens.filter (fun r => now < r.expireAt) }

/-- The `createTokens` util: generates a fresh opaque refresh value
(`randomUUID`), persists `{ token, userId }` (the schema default sets
`expireAt = now + REFRESH_TOKEN_TTL`), signs the access token with the
user roles as payload and the user id as subject, and returns the pair. -/
def createTokens (now : Nat) (userData : UserRec) (db : DB) : DB × Nat × Jwt :=
  let refreshToken := db.nextTokenVal
  let row : RefreshTokenRow :=
    ⟨db.nextRowId, refreshToken, userData.id, now + REFRESH_TOKEN_TTL⟩
  let db1 : DB :=
    { db with
      refreshTokens := db.refreshTokens ++ [row],
      nextTokenVal := db.nextTokenVal + 1,
      nextRowId := db.nextRowId + 1 }
  (db1, refreshToken, jwtSign userData.roles (toString userData.id) now)

/-- The `setAuthCookies` util: sets the `refreshToken` cookie and the
`accessToken` cookie on the response. -/
def setAuthCookies (refreshToken : Nat) (accessToken : Jwt) : List Cookie :=
  [⟨"refreshToken", .refreshVal refreshToken⟩, ⟨"accessToken", .accessVal accessToken⟩]

/-- The `register` controller (module10 auth server): conflict check via
`User.exists`, bcrypt hash, `User.create`, `createTokens`, `setAuthCookies`,
`201 Registered`.  A thrown error leaves the state as it was at the throw. -/
def register (now : Nat) (email password firstName lastName : String) (db : DB) :
    DB × Except HttpErr AuthResponse :=
  if User.existsEmail db email then
    (db, .error ⟨409, "Email already exists", none⟩)
  else
    let hashedPW := bcryptHash password
    let created := User.createUser db email hashedPW firstName lastName
    let issued := createTokens now created.2 created.1
    (issued.1, .ok ⟨201, "Registered", setAuthCookies issued.2.1 issued.2.2⟩)

/-- The `login` controller (module10 auth server): user lookup by email and
bcrypt comparison both fail with the same undifferentiated
`401 Incorrect credentials`; on success all refresh tokens of the user are
deleted (`deleteMany`), then `createTokens` and `setAuthCookies` run, then
`200 Logged in` is sent. -/
def login (now : Nat) (email password : String) (db : DB) :
    DB × Except HttpErr AuthResponse :=
  match User.findOneByEmail db email with
  | none => (db, .error ⟨401, "Incorrect credentials", none⟩)
  | some user =>
    if !(bcryptCompare password user.password) then
      (db, .error ⟨401, "Incorrect credentials", none⟩)
    else
      let db1 := RefreshToken.deleteMany db user.id
      let issued := createTokens now user db1
      (issued.1, .ok ⟨200, "Logged in", setAuthCookies issued.2.1 issued.2.2⟩)

/-- The `refresh` controller (module10 auth server): missing cookie fails
`401`; `findOne` miss fails `403 Refresh token not found.`; otherwise the
stored token is deleted by id, the owning user is looked up (`403 User not
found.` on miss), and a brand-new pair is issued and set as cookies. -/
def refresh (now : Nat) (cookie : Option Nat) (db : DB) :
    DB × Except HttpErr AuthResponse :=
  match cookie with
  | none => (db, .error ⟨401, "Refresh token is required.", none⟩)
  | some refreshToken =>
    match RefreshToken.findOne db refreshToken with
    | none => (db, .error ⟨403, "Refresh token not found.", none⟩)
    | some storedToken =>
      let db1 := RefreshToken.findByIdAndDelete db storedToken.id
      match User.findById db1 storedToken.userId with
      | none => (db1, .error ⟨403, "User not found.", none⟩)
      | some user =>
        let issued := createTokens now user db1
        (issued.1, .ok ⟨200, "Refreshed", setAuthCookies issued.2.1 issued.2.2⟩)

/-- Intermediate outcome of the `try` block of the `me` controller: the
distinguished `TokenExpiredError` from `jwt.verify`, any other `jwt.verify`
error, or an error thrown inside the `try` body (the missing-subject `403`
and the user-not-found `404`) — all of which land in the same `catch`. -/
inductive MeTryErr where
  | tokenExpired : MeTryErr
  | jwtInvalid : MeTryErr
  | thrown (e : HttpErr) : MeTryErr
deriving Repr, DecidableEq

/-- The `try` block of the `me` controller: verify the access token, require
a `sub` claim, look up the user. -/
def meTry (now : Nat) (accessToken : Jwt) (db : DB) : Except MeTryErr UserRec :=
  match jwtVerify now accessToken with
  | .expired => .error .tokenExpired
  | .invalid => .error .jwtInvalid
  | .ok sub _roles =>
    match sub with
    | none => .error (.thrown ⟨403, "Invalid or expired access token.", none⟩)
    | some s =>
      match User.findByIdStr db s with
      | none => .error (.thrown ⟨404, "User not found", none⟩)
      | some user => .ok user

/-- The `me` controller (module10 auth server): missing cookie fails `401`;
the `catch` maps `TokenExpiredError` to
`401` with code `ACCESS_TOKEN_EXPIRED`, and every other caught error —
including the `403`/`404` thrown inside the `try` body — to the generic
`401 Invalid access token.`. -/
def me (now : Nat) (cookie : Option Jwt) (db : DB) : Except HttpErr (String × UserRec) :=
  match cookie with
  | none => .error ⟨401, "Access token is required.", none⟩
  | some accessToken =>
    match meTry now accessToken db with
    | .ok user => .ok ("Valid token", user)
    | .error .tokenExpired =>
      .error ⟨401, "Expired access token", some "ACCESS_TOKEN_EXPIRED"⟩
    | .error _ => .error ⟨401, "Invalid access token.", none⟩

/-- A rendered error response: status, JSON message payload, and the
optional `WWW-Authenticate` header. -/
structure ErrResponse where
  status : Nat
  message : String
  wwwAuthenticate : Option String
deriving Repr, DecidableEq

/-- The exact header value set for expired access tokens. -/
def tokenExpiredHeader : String :=
  "Bearer error=\"token_expired\", error_description=\"The access token expired\""

/-- The `errorHandler` middleware (module10 auth server), restricted to
errors carrying a `cause` (every domain error here does): it sets the
`WWW-Authenticate` header exactly when the cause code is
`ACCESS_TOKEN_EXPIRED`, and responds with the cause status and the error
message. -/
def errorHandler (err : HttpErr) : ErrResponse :=
  { status := err.status
    message := err.message
    wwwAuthenticate :=
      if err.code == some "ACCESS_TOKEN_EXPIRED" then some tokenExpiredHeader
      else none }

/-- The module11 `signUp` success response: `res.json(user)` — status 200,
the full created user document as body, and whatever cookies were set
(none are). -/
structure SignUpResponse where
  status : Nat
  bodyUser : UserRec
  cookies : List Cookie
deriving Repr, DecidableEq

/-- The module11 `signUp` controller: duplicate email fails with
`400 Email already exists`; otherwise the password is bcrypt-hashed, the
user is created, and `res.json(user)` sends the full created document —
no token is signed and no cookie is set. -/
def signUp (email password firstName lastName : String) (db : DB) :
    DB × Except HttpErr SignUpResponse :=
  match User.findOneByEmail db email with
  | some _ => (db, .error ⟨400, "Email already exists", none⟩)
  | none =>
    let hashedPassword := bcryptHash password
    let created := User.createUser db email hashedPassword firstName lastName
    (created.1, .ok ⟨200, created.2, []⟩)

/-- The module11 `signIn` route (lesson plan): unknown email throws
`404 User not found`; a known email with a mismatching password throws
`401 Invalid email or password`; success signs a six-day JWT and sets the
single `token` cookie with `201 Welcome back`. -/
def signIn (now : Nat) (email password : String) (db : DB) :
    DB × Except HttpErr AuthResponse :=
  match User.findOneByEmail db email with
  | none => (db, .error ⟨404, "User not found", none⟩)
  | some user =>
    if !(bcryptCompare password user.password) then
      (db, .error ⟨401, "Invalid email or password", none⟩)
    else
      let token := jwtSign [] (toString user.id) now
      (db, .ok ⟨201, "Welcome back", [⟨"token", .accessVal token⟩]⟩)

/-- Well-formedness of a database state, maintained by the handlers:
stored opaque token values are below the fresh-value counter and pairwise
distinct (the schema declares `token` unique), row ids are below the row-id
counter and pairwise distinct, and stored `userId` references and user ids
are below the user-id counter. -/
def DB.Wf (db : DB) : Prop :=
  (∀ r ∈ db.refreshTokens, r.token < db.nextTokenVal) ∧
  (db.refreshTokens.map (fun r => r.token)).Nodup ∧
  (∀ r ∈ db.refreshTokens, r.id < db.nextRowId) ∧
  (db.refreshTokens.map (fun r => r.id)).Nodup ∧
  (∀ r ∈ db.refreshTokens, r.userId < db.nextUserId) ∧
  (∀ u ∈ db.users, u.id < db.nextUserId)

instance (db : DB) : Decidable db.Wf := by
  unfold DB.Wf; infer_instance

/-!
Small-step machine for the `refresh` controller, used to examine
interleavings of two concurrent callers.  Each `await`-ed database call of
the handler body is one atomic step; the program counter walks the
statements of the source in order: `findOne`, `findByIdAndDelete`,
`findById` (user), `createTokens`.  A caller that has thrown or responded
is at the final counter with its `result` set.
-/

/-- Local state of one in-flight `refresh` call. -/
structure RCaller where
  pc : Nat
  cookieVal : Nat
  found : Option RefreshTokenRow
  userFound : Option UserRec
  result : Option (Except HttpErr (Nat × Jwt))
deriving Repr

/-- The initial local state of a `refresh` call presenting value `v`
(cookie present, so the missing-cookie throw is not taken). -/
def RCaller.start (v : Nat) : RCaller := ⟨0, v, none, none, none⟩

/-- One atomic step of an in-flight `refresh` call against the shared
database: pc 0 runs `RefreshToken.findOne`, pc 1 runs
`RefreshToken.findByIdAndDelete`, pc 2 runs `User.findById`, pc 3 runs
`createTokens`; pc 4 is terminal. -/
def rStep (now : Nat) (c : RCaller) (db : DB) : RCaller × DB :=
  match c.pc with
  | 0 =>
    match RefreshToken.findOne db c.cookieVal with
    | none =>
      ({ c with pc := 4, result := some (.error ⟨403, "Refresh token not found.", none⟩) }, db)
    | some storedToken => ({ c with pc := 1, found := some storedToken }, db)
  | 1 =>
    match c.found with
    | some storedToken =>
      ({ c with pc := 2 }, RefreshToken.findByIdAndDelete db storedToken.id)
    | none => (c, db)
  | 2 =>
    match c.found with
    | some storedToken =>
      match User.findById db storedToken.userId with
      | none =>
        ({ c with pc := 4, result := some (.error ⟨403, "User not found.", none⟩) }, db)
      | some user => ({ c with pc := 3, userFound := some user }, db)
    | none => (c, db)
  | 3 =>
    match c.userFound with
    | some user =>
      let issued := createTokens now user db
      ({ c with pc := 4, result := some (.ok issued.2) }, issued.1)
    | none => (c, db)
  | _ => (c, db)

/-- Shared state of two concurrent `refresh` callers. -/
structure TwoCallers where
  a : RCaller
  b : RCaller
  db : DB
deriving Repr

/-- Run a schedule: `false` steps caller `a`, `true` steps caller `b`. -/
def runSched (now : Nat) : List Bool → TwoCallers → TwoCallers
  | [], s => s
  | false :: rest, s =>
    let step := rStep now s.a s.db
    runSched now rest ⟨step.1, s.b, step.2⟩
  | true :: rest, s =>
    let step := rStep now s.b s.db
    runSched now rest ⟨s.a, step.1, step.2⟩

/-- A concrete user for instantiating the theorems. -/
def alice : UserRec :=
  ⟨1, "alice@example.com", bcryptHash "correct-horse", ["user"], "Alice", "Auth"⟩

/-- A concrete database: alice plus one live refresh token (row id 0,
opaque value 5, owned by alice, `expireAt = 1000`). -/
def dbOneToken : DB := ⟨[alice], [⟨0, 5, 1, 1000⟩], 2, 6, 1⟩

/-- The schedule in which both concurrent refresh callers run their
`findOne` step before either runs its delete step, and then each finishes
its remaining steps. -/
def raceSchedule : List Bool := [false, true, false, false, false, true, true, true]

/-- Final state of two concurrent refresh calls, both presenting the stored
value 5 of `dbOneToken`, under `raceSchedule`. -/
def raceFinal : TwoCallers :=
  runSched 100 raceSchedule ⟨RCaller.start 5, RCaller.start 5, dbOneToken⟩

theorem findOne_eq_none_iff (db : DB) (v : Nat) :
    RefreshToken.findOne db v = none ↔ ∀ r ∈ db.refreshTokens, r.token ≠ v := by
  simp [RefreshToken.findOne, List.find?_eq_none]

theorem findOne_mem {db : DB} {v : Nat} {st : RefreshTokenRow}
    (h : RefreshToken.findOne db v = some st) : st ∈ db.refreshTokens :=
  List.mem_of_find?_eq_some h

theorem findOne_token {db : DB} {v : Nat} {st : RefreshTokenRow}
    (h : RefreshToken.findOne db v = some st) : st.token = v := by
  have := List.find?_some h
  simpa using this

theorem token_inj (db : DB) (hwf : db.Wf) {r s : RefreshTokenRow}
    (hr : r ∈ db.refreshTokens) (hs : s ∈ db.refreshTokens)
    (h : r.token = s.token) : r = s :=
  List.inj_on_of_nodup_map hwf.2.1 hr hs h

/-- C1: a refresh value, once successfully consumed by the refresh handler
(the call found the stored token, deleted it, and issued a new pair), fails
with Forbidden (status 403) on any subsequent sequential call presenting
the same value, and that failing call leaves the database unchanged —
in particular it creates no new RefreshToken row. -/
theorem refresh_value_single_use (db : DB) (now v : Nat) (hwf : db.Wf)
    (hok : ∃ resp, (refresh now (some v) db).2 = Except.ok resp) :
    refresh now (some v) ((refresh now (some v) db).1) =
      ((refresh now (some v) db).1,
        Except.error ⟨403, "Refresh token not found.", none⟩) := by
  obtain ⟨resp, hr⟩ := hok
  rcases hfind : RefreshToken.findOne db v with _ | st
  · simp [refresh, hfind] at hr
  · rcases huser : User.findById (RefreshToken.findByIdAndDelete db st.id) st.userId
      with _ | u
    · simp [refresh, hfind, huser] at hr
    · have hst_mem : st ∈ db.refreshTokens := findOne_mem hfind
      have hst_tok : st.token = v := findOne_token hfind
      have hfnone :
          RefreshToken.findOne ((refresh now (some v) db).1) v = none := by
        rw [findOne_eq_none_iff]
        intro r hrmem
        simp only [refresh, hfind, huser] at hrmem
        simp only [createTokens, RefreshToken.findByIdAndDelete, List.mem_append,
          List.mem_filter, List.mem_singleton, decide_eq_true_eq] at hrmem
        rcases hrmem with ⟨hmem, hid⟩ | hnew
        · intro hto
          have hre : r = st :=
            token_inj db hwf hmem hst_mem (by rw [hto, hst_tok])
          subst hre
          simp at hid
        · subst hnew
          have hlt : st.token < db.nextTokenVal := hwf.1 st hst_mem
          intro hto
          have hv2 : db.nextTokenVal = v := hto
          omega
      generalize hD : (refresh now (some v) db).1 = D at hfnone ⊢
      simp [refresh, hfnone]

/-- Witness for C1: in `dbOneToken`, value 5 is consumed successfully, and
a second sequential call with value 5 fails 403 and leaves the post-state
unchanged. -/
theorem refresh_value_single_use_witness :
    refresh 100 (some 5) ((refresh 100 (some 5) dbOneToken).1) =
      ((refresh 100 (some 5) dbOneToken).1,
        Except.error ⟨403, "Refresh token not found.", none⟩) :=
  refresh_value_single_use dbOneToken 100 5 (by decide)
    ⟨⟨200, "Refreshed", setAuthCookies 6 (jwtSign ["user"] "1" 100)⟩, rfl⟩

/-- C2 fails on the code: the refresh handler runs `findOne` and
`findByIdAndDelete` as two separate awaited steps and never checks whether
the delete removed a row, so the interleaving in which both concurrent
callers run `findOne` before either deletes lets BOTH succeed: each caller
issues a session pair (values 6 and 7) and TWO new RefreshToken rows
result, where the claim requires exactly one success, one Forbidden
failure, and exactly one new row. -/
theorem refresh_race_both_succeed :
    raceFinal.a.result = some (Except.ok (6, jwtSign ["user"] "1" 100)) ∧
    raceFinal.b.result = some (Except.ok (7, jwtSign ["user"] "1" 100)) ∧
    raceFinal.db.refreshTokens =
      [⟨1, 6, 1, 100 + REFRESH_TOKEN_TTL⟩, ⟨2, 7, 1, 100 + REFRESH_TOKEN_TTL⟩] :=
  ⟨rfl, rfl, rfl⟩

/-- C3: a successful login deletes every RefreshToken previously issued to
the user before the new credentials are handed over: afterwards exactly
one live row exists for the user (the newly created one), and any refresh
value previously issued to that user now fails Forbidden without changing
the state. -/
theorem login_supersedes_prior_sessions (db : DB) (now : Nat)
    (email password : String) (u : UserRec) (v : Nat)
    (hwf : db.Wf)
    (hu : User.findOneByEmail db email = some u)
    (hpw : bcryptCompare password u.password = true)
    (hv : ∃ row ∈ db.refreshTokens, row.userId = u.id ∧ row.token = v) :
    (∃ resp, (login now email password db).2 = Except.ok resp) ∧
    (login now email password db).1.refreshTokens.filter
        (fun r => r.userId == u.id) =
      [⟨db.nextRowId, db.nextTokenVal, u.id, now + REFRESH_TOKEN_TTL⟩] ∧
    refresh now (some v) ((login now email password db).1) =
      ((login now email password db).1,
        Except.error ⟨403, "Refresh token not found.", none⟩) := by
  obtain ⟨row, hrow_mem, hrow_uid, hrow_tok⟩ := hv
  have h1 : (login now email password db).1 =
      { db with
        refreshTokens :=
          db.refreshTokens.filter (fun r => r.userId ≠ u.id) ++
            [⟨db.nextRowId, db.nextTokenVal, u.id, now + REFRESH_TOKEN_TTL⟩],
        nextTokenVal := db.nextTokenVal + 1,
        nextRowId := db.nextRowId + 1 } := by
    simp [login, hu, hpw, RefreshToken.deleteMany, createTokens]
  refine ⟨⟨⟨200, "Logged in",
    setAuthCookies db.nextTokenVal (jwtSign u.roles (toString u.id) now)⟩, ?_⟩,
    ?_, ?_⟩
  · simp [login, hu, hpw, RefreshToken.deleteMany, createTokens]
  · rw [h1]
    have hleft : (db.refreshTokens.filter (fun r => r.userId ≠ u.id)).filter
        (fun r => r.userId == u.id) = [] := by
      rw [List.filter_eq_nil_iff]
      intro r hrf
      rw [List.mem_filter] at hrf
      have : r.userId ≠ u.id := by simpa using hrf.2
      simp [this]
    simp [List.filter_append, hleft]
  · have hfnone :
        RefreshToken.findOne ((login now email password db).1) v = none := by
      rw [h1, findOne_eq_none_iff]
      intro r hrmem
      simp only [List.mem_append, List.mem_filter, List.mem_singleton,
        decide_eq_true_eq] at hrmem
      rcases hrmem with ⟨hmem, hneq⟩ | hnew
      · intro hto
        have hre : r = row := token_inj db hwf hmem hrow_mem (by rw [hto, hrow_tok])
        subst hre
        exact hneq (by rw [hrow_uid])
      · subst hnew
        intro hto
        have hlt : row.token < db.nextTokenVal := hwf.1 row hrow_mem
        have hv2 : db.nextTokenVal = v := hto
        omega
    generalize hD : (login now email password db).1 = D at hfnone ⊢
    simp [refresh, hfnone]

/-- Witness for C3: alice logs in with the correct password; the old value
5 then fails Forbidden against the post-login state. -/
theorem login_supersedes_prior_sessions_witness :
    refresh 100 (some 5) ((login 100 "alice@example.com" "correct-horse" dbOneToken).1) =
      ((login 100 "alice@example.com" "correct-horse" dbOneToken).1,
        Except.error ⟨403, "Refresh token not found.", none⟩) :=
  (login_supersedes_prior_sessions dbOneToken 100 "alice@example.com"
    "correct-horse" alice 5 (by decide) rfl rfl (by decide)).2.2

/-- C4: the refresh handler fails with status 401 (Unauthenticated) exactly
when the request carries no refresh cookie; a present credential that
misses in `findOne`, or whose owning user no longer exists, fails with
status 403 (Forbidden); and in every failing case no new session pair is
issued: the fresh-value counter is unchanged and every row of the
post-state was already stored. -/
theorem refresh_error_taxonomy (db : DB) (now : Nat) (cookie : Option Nat) :
    ((∃ e, (refresh now cookie db).2 = Except.error e ∧ e.status = 401) ↔
      cookie = none) ∧
    (cookie = none →
      refresh now cookie db =
        (db, Except.error ⟨401, "Refresh token is required.", none⟩)) ∧
    (∀ v, cookie = some v → RefreshToken.findOne db v = none →
      refresh now cookie db =
        (db, Except.error ⟨403, "Refresh token not found.", none⟩)) ∧
    (∀ v st, cookie = some v → RefreshToken.findOne db v = some st →
      User.findById (RefreshToken.findByIdAndDelete db st.id) st.userId = none →
      refresh now cookie db =
        (RefreshToken.findByIdAndDelete db st.id,
          Except.error ⟨403, "User not found.", none⟩)) ∧
    (∀ e, (refresh now cookie db).2 = Except.error e →
      (refresh now cookie db).1.nextTokenVal = db.nextTokenVal ∧
      ∀ r ∈ (refresh now cookie db).1.refreshTokens, r ∈ db.refreshTokens) := by
  rcases cookie with _ | v
  · refine ⟨?_, ?_, ?_, ?_, ?_⟩
    · simp [refresh]
    · intro _; simp [refresh]
    · intro v h; cases h
    · intro v st h; cases h
    · intro e _; simp [refresh]
  · rcases hfind : RefreshToken.findOne db v with _ | st
    · refine ⟨?_, ?_, ?_, ?_, ?_⟩
      · simp only [refresh, hfind]
        constructor
        · rintro ⟨e, he, hs⟩
          cases he
          simp at hs
        · intro h; cases h
      · intro h; cases h
      · intro w hw _
        cases hw
        simp [refresh, hfind]
      · intro w st hw hf
        cases hw
        rw [hf] at hfind
        cases hfind
      · intro e _
        simp [refresh, hfind]
    · rcases huser : User.findById (RefreshToken.findByIdAndDelete db st.id) st.userId
        with _ | u
      · refine ⟨?_, ?_, ?_, ?_, ?_⟩
        · simp only [refresh, hfind, huser]
          constructor
          · rintro ⟨e, he, hs⟩
            cases he
            simp at hs
          · intro h; cases h
        · intro h; cases h
        · intro w hw hf
          cases hw
          rw [hf] at hfind
          cases hfind
        · intro w st2 hw hf hu
          cases hw
          rw [hf] at hfind
          cases hfind
          simp [refresh, hf, hu]
        · intro e _
          constructor
          · simp only [refresh, hfind, huser]
            simp [RefreshToken.findByIdAndDelete]
          · intro r hr
            simp only [refresh, hfind, huser] at hr
            simp only [RefreshToken.findByIdAndDelete, List.mem_filter,
              decide_eq_true_eq] at hr
            exact hr.1
      · refine ⟨?_, ?_, ?_, ?_, ?_⟩
        · simp only [refresh, hfind, huser]
          constructor
          · rintro ⟨e, he, _⟩
            cases he
          · intro h; cases h
        · intro h; cases h
        · intro w hw hf
          cases hw
          rw [hf] at hfind
          cases hfind
        · intro w st2 hw hf hu
          cases hw
          rw [hf] at hfind
          cases hfind
          rw [hu] at huser
          cases huser
        · intro e he
          simp only [refresh, hfind, huser] at he
          cases he

/-- Witness for C4: a refresh call with no cookie on `dbOneToken` fails
`401 Refresh token is required.` and leaves the state unchanged. -/
theorem refresh_error_taxonomy_witness :
    refresh 100 none dbOneToken =
      (dbOneToken, Except.error ⟨401, "Refresh token is required.", none⟩) :=
  (refresh_error_taxonomy dbOneToken 100 none).2.1 rfl

/-- Counterexample to C5: the stored row of `dbOneToken` has
`expireAt = 1000`; at `now = 2000` it is logically expired but not yet
physically deleted, yet `findOne` still returns it and the refresh call
presenting its value SUCCEEDS (issuing a new pair) instead of failing
Forbidden: the lookup applies no expiry filter. -/
theorem expired_token_honored_cx :
    dbOneToken.refreshTokens = [⟨0, 5, 1, 1000⟩] ∧ (1000 : Nat) < 2000 ∧
    RefreshToken.findOne dbOneToken 5 = some ⟨0, 5, 1, 1000⟩ ∧
    (refresh 2000 (some 5) dbOneToken).2 =
      Except.ok ⟨200, "Refreshed", setAuthCookies 6 (jwtSign ["user"] "1" 2000)⟩ :=
  ⟨rfl, by decide, rfl, rfl⟩

/-- C5 as amended: a logically expired but not yet physically deleted row
is still found by `findOne` and honored by the refresh handler (the call
succeeds); the Forbidden outcome occurs only once the TTL index has
physically deleted the row, after which a refresh presenting that value
fails 403 and leaves the swept state unchanged. -/
theorem expiry_only_by_physical_deletion (db : DB) (now v : Nat)
    (st : RefreshTokenRow) (u : UserRec)
    (hwf : db.Wf)
    (hfind : RefreshToken.findOne db v = some st)
    (hexp : st.expireAt ≤ now)
    (hu : User.findById (RefreshToken.findByIdAndDelete db st.id) st.userId = some u) :
    (∃ resp, (refresh now (some v) db).2 = Except.ok resp) ∧
    refresh now (some v) (ttlSweep now db) =
      (ttlSweep now db, Except.error ⟨403, "Refresh token not found.", none⟩) := by
  constructor
  · refine ⟨⟨200, "Refreshed",
      setAuthCookies (createTokens now u (RefreshToken.findByIdAndDelete db st.id)).2.1
        (createTokens now u (RefreshToken.findByIdAndDelete db st.id)).2.2⟩, ?_⟩
    simp only [refresh, hfind, hu]
  · have hst_mem : st ∈ db.refreshTokens := findOne_mem hfind
    have hst_tok : st.token = v := findOne_token hfind
    have hfnone : RefreshToken.findOne (ttlSweep now db) v = none := by
      rw [findOne_eq_none_iff]
      intro r hrmem
      simp only [ttlSweep, List.mem_filter, decide_eq_true_eq] at hrmem
      intro hto
      have hre : r = st := token_inj db hwf hrmem.1 hst_mem (by rw [hto, hst_tok])
      subst hre
      omega
    simp [refresh, hfnone]

/-- Witness for C5 as amended, at `dbOneToken` with `now = 2000`. -/
theorem expiry_only_by_physical_deletion_witness :
    (∃ resp, (refresh 2000 (some 5) dbOneToken).2 = Except.ok resp) ∧
    refresh 2000 (some 5) (ttlSweep 2000 dbOneToken) =
      (ttlSweep 2000 dbOneToken,
        Except.error ⟨403, "Refresh token not found.", none⟩) :=
  expiry_only_by_physical_deletion dbOneToken 2000 5 ⟨0, 5, 1, 1000⟩ alice
    (by decide) rfl (by decide) rfl

/-- C6: the `me` endpoint answers an expired access token with the 401
response carrying the machine-readable `ACCESS_TOKEN_EXPIRED` code, which
the error handler renders as the `WWW-Authenticate` header with the
`token_expired` indicator; the rendered marker appears exactly in the
expired case, and a token rejected for bad signature or malformed
structure gets the generic invalid-token 401 without the marker. -/
theorem me_expired_marker_exact (now : Nat) (cookie : Option Jwt) (db : DB) :
    (∀ tok, cookie = some tok → jwtVerify now tok = .expired →
      me now cookie db =
        Except.error ⟨401, "Expired access token", some "ACCESS_TOKEN_EXPIRED"⟩ ∧
      errorHandler ⟨401, "Expired access token", some "ACCESS_TOKEN_EXPIRED"⟩ =
        ⟨401, "Expired access token", some tokenExpiredHeader⟩) ∧
    (∀ e, me now cookie db = Except.error e →
      ((errorHandler e).wwwAuthenticate = some tokenExpiredHeader ↔
        ∃ tok, cookie = some tok ∧ jwtVerify now tok = .expired)) ∧
    (∀ tok, cookie = some tok → jwtVerify now tok = .invalid →
      me now cookie db = Except.error ⟨401, "Invalid access token.", none⟩ ∧
      (errorHandler ⟨401, "Invalid access token.", none⟩).wwwAuthenticate = none) := by
  refine ⟨?_, ?_, ?_⟩
  · rintro tok rfl hv
    constructor
    · simp [me, meTry, hv]
    · simp [errorHandler]
  · intro e he
    rcases cookie with _ | tok
    · simp only [me] at he
      cases he
      constructor
      · intro h
        simp [errorHandler, tokenExpiredHeader] at h
      · rintro ⟨tok, htok, _⟩
        cases htok
    · rcases hv : jwtVerify now tok with _ | _ | ⟨sub, roles⟩
      · simp only [me, meTry, hv] at he
        cases he
        constructor
        · intro _
          exact ⟨tok, rfl, hv⟩
        · intro _
          simp [errorHandler]
      · simp only [me, meTry, hv] at he
        cases he
        constructor
        · intro h
          simp [errorHandler, tokenExpiredHeader] at h
        · rintro ⟨tok2, htok2, hv2⟩
          cases htok2
          rw [hv2] at hv
          cases hv
      · rcases sub with _ | s
        · simp only [me, meTry, hv] at he
          cases he
          constructor
          · intro h
            simp [errorHandler, tokenExpiredHeader] at h
          · rintro ⟨tok2, htok2, hv2⟩
            cases htok2
            rw [hv2] at hv
            cases hv
        · rcases hfu : User.findByIdStr db s with _ | u2
          · simp only [me, meTry, hv, hfu] at he
            cases he
            constructor
            · intro h
              simp [errorHandler, tokenExpiredHeader] at h
            · rintro ⟨tok2, htok2, hv2⟩
              cases htok2
              rw [hv2] at hv
              cases hv
          · simp only [me, meTry, hv, hfu] at he
            cases he
  · rintro tok rfl hv
    constructor
    · simp [me, meTry, hv]
    · simp [errorHandler]

/-- Witness for C6: a correctly signed token that expired at 1000,
presented at `now = 2000`, yields the marked 401 and the
`WWW-Authenticate` header. -/
theorem me_expired_marker_exact_witness :
    me 2000 (some (jwtSign ["user"] "1" 100)) dbOneToken =
      Except.error ⟨401, "Expired access token", some "ACCESS_TOKEN_EXPIRED"⟩ ∧
    errorHandler ⟨401, "Expired access token", some "ACCESS_TOKEN_EXPIRED"⟩ =
      ⟨401, "Expired access token", some tokenExpiredHeader⟩ :=
  (me_expired_marker_exact 2000 (some (jwtSign ["user"] "1" 100)) dbOneToken).1
    (jwtSign ["user"] "1" 100) rfl rfl

/-- C7 fails on the module11 `signIn` route: an unknown email is rejected
with `404 User not found` while a known email with a mismatching password
is rejected with `401 Invalid email or password` — two different statuses
and messages, so the caller CAN tell the causes apart, although the lesson
itself says which part was wrong must not be revealed.  The module10
`login` does satisfy the property: both causes yield the identical
`401 Incorrect credentials`. -/
theorem signIn_distinguishes_failure_causes :
    (signIn 100 "ghost@example.com" "whatever" dbOneToken).2 =
      Except.error ⟨404, "User not found", none⟩ ∧
    (signIn 100 "alice@example.com" "wrong" dbOneToken).2 =
      Except.error ⟨401, "Invalid email or password", none⟩ ∧
    (404 : Nat) ≠ 401 ∧
    (login 100 "ghost@example.com" "whatever" dbOneToken).2 =
      Except.error ⟨401, "Incorrect credentials", none⟩ ∧
    (login 100 "alice@example.com" "wrong" dbOneToken).2 =
      Except.error ⟨401, "Incorrect credentials", none⟩ :=
  ⟨rfl, rfl, by decide, rfl, rfl⟩

/-- Counterexample to C8: the module11 `signUp` (one of the claim sources)
rejects a duplicate email with status 400, not the claimed Conflict 409. -/
theorem signUp_conflict_status_cx :
    (signUp "alice@example.com" "pw2" "Bob" "Builder" dbOneToken).2 =
      Except.error ⟨400, "Email already exists", none⟩ ∧
    (400 : Nat) ≠ 409 :=
  ⟨rfl, by decide⟩

/-- C8 as amended: a registration whose email already exists fails without
touching the store — with Conflict 409 in the module10 `register`, but
with status 400 (same `Email already exists` message) in the module11
`signUp`; in both variants no second User record is created and the
database is returned unchanged. -/
theorem duplicate_email_rejected (db : DB) (now : Nat)
    (email password firstName lastName : String)
    (hdup : User.existsEmail db email = true) :
    register now email password firstName lastName db =
      (db, Except.error ⟨409, "Email already exists", none⟩) ∧
    signUp email password firstName lastName db =
      (db, Except.error ⟨400, "Email already exists", none⟩) := by
  have hfound : ∃ u, User.findOneByEmail db email = some u := by
    unfold User.existsEmail at hdup
    rw [List.any_eq_true] at hdup
    obtain ⟨x, hx, hpx⟩ := hdup
    unfold User.findOneByEmail
    rcases hf : db.users.find? (fun u => u.email == email) with _ | u
    · rw [List.find?_eq_none] at hf
      exact absurd hpx (hf x hx)
    · exact ⟨u, hf⟩
  obtain ⟨u, hu⟩ := hfound
  constructor
  · simp [register, hdup]
  · simp [signUp, hu]

/-- Witness for C8 as amended: alice is already registered in
`dbOneToken`; both variants reject the duplicate and leave the store
unchanged. -/
theorem duplicate_email_rejected_witness :
    register 100 "alice@example.com" "pw2" "Bob" "Builder" dbOneToken =
      (dbOneToken, Except.error ⟨409, "Email already exists", none⟩) ∧
    signUp "alice@example.com" "pw2" "Bob" "Builder" dbOneToken =
      (dbOneToken, Except.error ⟨400, "Email already exists", none⟩) :=
  duplicate_email_rejected dbOneToken 100 "alice@example.com" "pw2" "Bob"
    "Builder" rfl

/-- C9: registering with a previously unused email succeeds with
`201 Registered`, hands the client both credentials (the `refreshToken`
cookie with the fresh opaque value and the `accessToken` cookie with the
signed JWT), creates the user, and leaves exactly one RefreshToken row
linked to the new user. -/
theorem register_issues_single_session (db : DB) (now : Nat)
    (email password firstName lastName : String)
    (hwf : db.Wf)
    (hnew : User.existsEmail db email = false) :
    (register now email password firstName lastName db).2 =
      Except.ok ⟨201, "Registered",
        setAuthCookies db.nextTokenVal
          (jwtSign ["user"] (toString db.nextUserId) now)⟩ ∧
    (register now email password firstName lastName db).1.refreshTokens.filter
        (fun r => r.userId == db.nextUserId) =
      [⟨db.nextRowId, db.nextTokenVal, db.nextUserId, now + REFRESH_TOKEN_TTL⟩] ∧
    (⟨db.nextUserId, email, bcryptHash password, ["user"], firstName, lastName⟩ :
        UserRec) ∈ (register now email password firstName lastName db).1.users := by
  have h1 : (register now email password firstName lastName db).1 =
      { db with
        users := db.users ++
          [⟨db.nextUserId, email, bcryptHash password, ["user"], firstName, lastName⟩],
        refreshTokens := db.refreshTokens ++
          [⟨db.nextRowId, db.nextTokenVal, db.nextUserId, now + REFRESH_TOKEN_TTL⟩],
        nextUserId := db.nextUserId + 1,
        nextTokenVal := db.nextTokenVal + 1,
        nextRowId := db.nextRowId + 1 } := by
    simp [register, hnew, User.createUser, createTokens]
  refine ⟨?_, ?_, ?_⟩
  · simp [register, hnew, User.createUser, createTokens]
  · rw [h1]
    have hold : db.refreshTokens.filter (fun r => r.userId == db.nextUserId) = [] := by
      rw [List.filter_eq_nil_iff]
      intro r hr
      have hlt : r.userId < db.nextUserId := hwf.2.2.2.2.1 r hr
      simp
      omega
    simp [List.filter_append, hold]
  · rw [h1]
    simp

/-- Witness for C9: registering bob on `dbOneToken`. -/
theorem register_issues_single_session_witness :
    (register 100 "bob@example.com" "pw2" "Bob" "Builder" dbOneToken).1.refreshTokens.filter
        (fun r => r.userId == dbOneToken.nextUserId) =
      [⟨dbOneToken.nextRowId, dbOneToken.nextTokenVal, dbOneToken.nextUserId,
        100 + REFRESH_TOKEN_TTL⟩] :=
  (register_issues_single_session dbOneToken 100 "bob@example.com" "pw2" "Bob"
    "Builder" (by decide) rfl).2.1

/-- C10: a successful module11 `signUp` responds with the full created
User document — the body carries the stored bcrypt hash in its `password`
field, because `select: false` applies to queries and not to the document
returned by `create` — and sets no cookie and signs no token: the
response carries no session credential. -/
theorem signUp_responds_full_document_no_session (db : DB)
    (email password firstName lastName : String)
    (hnone : User.findOneByEmail db email = none) :
    (signUp email password firstName lastName db).2 =
      Except.ok ⟨200,
        ⟨db.nextUserId, email, bcryptHash password, ["user"], firstName, lastName⟩,
        []⟩ := by
  simp [signUp, hnone, User.createUser]

/-- Witness for C10: signing bob up on `dbOneToken` returns the full user
document (hash included) and an empty cookie list. -/
theorem signUp_responds_full_document_no_session_witness :
    (signUp "bob@example.com" "pw2" "Bob" "Builder" dbOneToken).2 =
      Except.ok ⟨200,
        ⟨2, "bob@example.com", bcryptHash "pw2", ["user"], "Bob", "Builder"⟩, []⟩ :=
  signUp_responds_full_document_no_session dbOneToken "bob@example.com" "pw2"
    "Bob" "Builder" rfl

end BackEndPrep
